import Mathlib

/-!
# Verification of the Videoarr job pipeline (src/backend/server.py)

A shallow embedding of the core of `src/backend/server.py`:
the probe-result analysis (`analyze_video_with_ffmpeg`), the settings
derivation (`generate_handbrake_settings`), the enqueue endpoint
(`queue_handbrake_job`) and the background worker (`run_handbrake_job`).

Modelling conventions:
* Python `int` is `Int`, Python `float` is `ℚ` (the program only does exact
  decimal arithmetic on probe numbers; no float-rounding-sensitive
  computation is claimed).
* Fallible / exception-raising code is embedded with `Option` / `Except`;
  a Python `try/except` block becomes a `match` on the `Except` value.
* Ambient effects that feed constructors (`uuid.uuid4()`, `datetime.utcnow()`,
  the exit status and stderr of the spawned encoder process) are explicit
  parameters.
* The document store (`db.*.find_one` / `insert_one` / `update_one` keyed by
  `id`) is a `List` of records with first-match lookup and first-match update.
* The file system is a partial map from path strings to file contents.
-/

namespace Videoarr

/-! ## Python string primitives used by the pipeline -/

/-- The whitespace characters recognised by Python's `str.split()` with no
separator (ASCII whitespace, the C1 field separators, and the Unicode
space characters). -/
def pyWsChars : List Char :=
  [' ', '\t', '\n', '\u000b', '\u000c', '\r',
   '\u001c', '\u001d', '\u001e', '\u001f', '\u0085', ' ',
   ' ', ' ', ' ', ' ', ' ', ' ', ' ',
   ' ', ' ', ' ', ' ', ' ', ' ', ' ',
   ' ', ' ', '　']

/-- Is `c` whitespace for Python's `str.split()` / `str.strip()`? -/
def isPySpace (c : Char) : Bool := pyWsChars.contains c

/-- The word decomposition performed by Python's `str.split()` (no separator
argument): split on maximal whitespace runs and drop empty pieces.  A
whitespace character is skipped; a non-whitespace character either starts a
new word (at the end, or when followed by whitespace) or extends the word
that the rest of the string starts with. -/
def words : List Char → List (List Char)
  | [] => []
  | c :: cs =>
    if isPySpace c then words cs
    else
      match cs with
      | [] => [[c]]
      | d :: _ =>
        if isPySpace d then [c] :: words cs
        else
          match words cs with
          | [] => [[c]]
          | w :: ws => (c :: w) :: ws

/-- Models Python `full_command.split()` (line 283): whitespace-run splitting,
empty pieces discarded. -/
def pySplit (s : String) : List String := (words s.data).map String.mk

/-- Models Python `" ".join(args)` (line 238): the argument strings joined
with single spaces. -/
def joinSpChars : List (List Char) → List Char
  | [] => []
  | [w] => w
  | w :: x :: ws => w ++ ' ' :: joinSpChars (x :: ws)

/-- String-level `" ".join`. -/
def pyJoin (args : List String) : String := String.mk (joinSpChars (args.map String.data))

/-- Splitting a character list at every occurrence of a separator character,
keeping empty pieces — the behaviour of Python's `s.split(sep)` with an
explicit one-character separator. -/
def splitOnChar (sep : Char) : List Char → List (List Char)
  | [] => [[]]
  | c :: cs =>
    if c = sep then [] :: splitOnChar sep cs
    else
      match splitOnChar sep cs with
      | [] => [[c]]
      | w :: ws => (c :: w) :: ws

/-- Models `pathlib.Path(s).name`: the last path component ('/'-separated,
empty and "." components dropped). -/
def pathName (s : String) : String :=
  (((splitOnChar '/' s.data).map String.mk).filter
    (fun comp => comp ≠ "" ∧ comp ≠ ".")).getLastD ""

/-- Models `pathlib.Path(s).stem`: the final component with its last
extension removed (pathlib keeps the whole name when the last dot is the
first character or the last character of the name). -/
def pathStem (s : String) : String :=
  let name := (pathName s).data
  match (name.reverse.dropWhile (fun c => c ≠ '.')) with
  | [] => String.mk name
  | _ :: rest =>
    -- `rest.reverse` is the part of `name` before its last '.'
    if rest = [] ∨ name.getLast? = some '.' then String.mk name
    else String.mk rest.reverse

/-- Numeric value of a list of decimal digit characters. -/
def digitsVal (l : List Char) : Nat := l.foldl (fun acc c => 10 * acc + (c.toNat - 48)) 0

/-- Models Python `float(s)` on finite decimal literals: optional surrounding
whitespace, optional sign, a digit string with optional fractional part, and
an optional exponent.  Exotic accepted forms (`inf`, `nan`, digit-group
underscores) are treated as parse failures; none of them can denote a finite
rational and none occurs in ffprobe rational fields. -/
def pyFloat (s : String) : Option ℚ :=
  let l := s.data.dropWhile isPySpace
  let l := (l.reverse.dropWhile isPySpace).reverse
  let (sign, l1) : ℚ × List Char :=
    match l with
    | '+' :: r => (1, r)
    | '-' :: r => (-1, r)
    | _ => (1, l)
  let ip := l1.takeWhile Char.isDigit
  let l2 := l1.dropWhile Char.isDigit
  let (fp, l3) : List Char × List Char :=
    match l2 with
    | '.' :: r => (r.takeWhile Char.isDigit, r.dropWhile Char.isDigit)
    | _ => ([], l2)
  if ip = [] ∧ fp = [] then none
  else
    let mant : ℚ := (digitsVal ip : ℚ) + (digitsVal fp : ℚ) / (10 : ℚ) ^ fp.length
    match l3 with
    | [] => some (sign * mant)
    | e :: r =>
      if e = 'e' ∨ e = 'E' then
        let (esign, r1) : Int × List Char :=
          match r with
          | '+' :: t => (1, t)
          | '-' :: t => (-1, t)
          | _ => (1, r)
        let ed := r1.takeWhile Char.isDigit
        if ed ≠ [] ∧ r1.dropWhile Char.isDigit = [] then
          some (sign * mant * (10 : ℚ) ^ (esign * (digitsVal ed : Int)))
        else none
      else none

/-- Models Python `int(q)` applied to a float: truncation toward zero. -/
def pyInt (q : ℚ) : Int := if 0 ≤ q then q.floor else -((-q).floor)

/-- Models Python `s.split('/')` (separator given: empty pieces kept). -/
def splitSlash (s : String) : List String := (splitOnChar '/' s.data).map String.mk

/-- The two float operands of a well-formed `num/den` rational string:
`some (float num, float den)` exactly when the string splits into two parts
and both parse as floats. -/
def ratParts (s : String) : Option (ℚ × ℚ) :=
  match splitSlash s with
  | [n, d] =>
    match pyFloat n, pyFloat d with
    | some nv, some dv => some (nv, dv)
    | _, _ => none
  | _ => none

/-- The frame-rate computation of lines 127-134.  The `try` body unpacks
`s.split('/')` into exactly two names (a `ValueError` otherwise), evaluates
`float(den)` in the conditional, and any exception from the unpacking or the
float conversions is caught by the bare `except`, leaving `None`. -/
def parseFrameRate (field : Option String) : Option ℚ :=
  match field with
  | none => none
  | some s =>
    match splitSlash s with
    | [n, d] =>
      match pyFloat d with
      | none => none
      | some dv =>
        if dv ≠ 0 then
          match pyFloat n with
          | none => none
          | some nv => some (nv / dv)
        else none
    | _ => none

/-! ## Data model (the pydantic records the core reads and writes) -/

/-- `VideoAnalysis` (lines 44-61).  `id` and `created_at` are filled from the
pydantic default factories (`uuid4`, `utcnow`), which the embedding passes in
explicitly. -/
structure VideoAnalysis where
  id : String
  filename : String
  file_path : String
  file_size : Int
  duration : ℚ
  resolution : String
  width : Int
  height : Int
  video_codec : String
  audio_codec : String
  video_bitrate : Option Int
  audio_bitrate : Option Int
  frame_rate : Option ℚ
  aspect_ratio : String
  container_format : String
  created_at : Nat
  analysis_status : String
deriving DecidableEq

/-- `HandbrakeSettings` (lines 63-74), the EncodingPlan record.  `id` and
`created_at` again come from the default factories. -/
structure HandbrakeSettings where
  id : String
  video_analysis_id : String
  preset : String
  video_encoder : String
  quality : String
  audio_encoder : String
  container : String
  estimated_compression : ℚ
  full_command : String
  reasoning : String
  created_at : Nat
deriving DecidableEq

/-- `HandbrakeJob` (lines 88-99). -/
structure HandbrakeJob where
  id : String
  video_analysis_id : String
  input_file : String
  output_file : String
  handbrake_settings_id : String
  status : String := "queued"
  progress : ℚ := 0
  created_at : Nat
  started_at : Option Nat := none
  completed_at : Option Nat := none
  error_message : Option String := none
deriving DecidableEq

/-! ## Settings derivation (`generate_handbrake_settings`, lines 172-256) -/

/-- The bits-per-pixel value of lines 181-182:
`(analysis.video_bitrate or 0) / pixels if pixels > 0 else 0`. -/
def bitratePerPixel (a : VideoAnalysis) : ℚ :=
  let pixels : Int := a.width * a.height
  if pixels > 0 then ((a.video_bitrate.getD 0 : Int) : ℚ) / ((pixels : Int) : ℚ) else 0

/-- The result of the resolution if/elif chain of lines 185-208. -/
structure TierChoice where
  preset : String
  quality : String
  video_encoder : String
  estimated_compression : ℚ
  reasoning : String
deriving DecidableEq

/-- The if/elif chain on `height` (lines 185-208), verbatim. -/
def tierOf (a : VideoAnalysis) : TierChoice :=
  if a.height ≥ 2160 then
    { preset := "Very Slow", quality := "20", video_encoder := "x265",
      estimated_compression := 0.4,
      reasoning := "4K content: Using x265 with CRF 20 for maximum compression while maintaining quality" }
  else if a.height ≥ 1080 then
    { preset := "Slow",
      quality := if bitratePerPixel a > 0.15 then "22" else "20",
      video_encoder := "x264", estimated_compression := 0.5,
      reasoning := "1080p content: Using x264 with balanced settings for good compression" }
  else if a.height ≥ 720 then
    { preset := "Medium", quality := "23", video_encoder := "x264",
      estimated_compression := 0.6,
      reasoning := "720p content: Using medium preset for faster encoding" }
  else
    { preset := "Fast", quality := "25", video_encoder := "x264",
      estimated_compression := 0.7,
      reasoning := "SD content: Using fast preset with higher CRF" }

/-- Audio encoder selection (lines 211-214). -/
def audioEncoderOf (a : VideoAnalysis) : String :=
  if a.audio_codec = "aac" ∨ a.audio_codec = "mp3" then "copy" else "aac"

/-- The output file name `f"{Path(input_file).stem}_optimized.{container}"`
(line 221); the container is always `"mp4"` (line 217). -/
def outputFileOf (a : VideoAnalysis) : String :=
  pathStem a.file_path ++ "_optimized." ++ "mp4"

/-- The `handbrake_cmd` list of lines 223-236, including the x265-only
`--encoder-preset medium` suffix. -/
def handbrakeCmd (a : VideoAnalysis) : List String :=
  let t := tierOf a
  let base := ["HandBrakeCLI",
    "-i", a.file_path,
    "-o", outputFileOf a,
    "--preset", t.preset,
    "--encoder", t.video_encoder,
    "--quality", t.quality,
    "--aencoder", audioEncoderOf a,
    "--format", "mp4"]
  if t.video_encoder = "x265" then base ++ ["--encoder-preset", "medium"] else base

/-- `generate_handbrake_settings` (lines 172-256).  `freshId` and `now` model
the `uuid.uuid4()` / `datetime.utcnow()` default factories that run when the
`HandbrakeSettings(...)` record is constructed at line 240. -/
def generate_handbrake_settings (a : VideoAnalysis) (freshId : String) (now : Nat) :
    HandbrakeSettings :=
  let t := tierOf a
  { id := freshId,
    video_analysis_id := a.id,
    preset := t.preset,
    video_encoder := t.video_encoder,
    quality := t.quality,
    audio_encoder := audioEncoderOf a,
    container := "mp4",
    estimated_compression := t.estimated_compression,
    full_command := pyJoin (handbrakeCmd a),
    reasoning := t.reasoning,
    created_at := now }

/-! ## Media prober (`analyze_video_with_ffmpeg`, lines 102-170) -/

/-- One entry of `probe['streams']`.  Fields the code reads with `.get` /
`in`-tests are `Option`s; numeric fields whose string-to-number conversion is
not at issue in any claim are carried already converted. -/
structure StreamInfo where
  codec_type : String
  codec_name : Option String
  width : Option Int
  height : Option Int
  bit_rate : Option Int
  r_frame_rate : Option String
  display_aspect_ratio : Option String
deriving DecidableEq

/-- `probe['format']`. -/
structure FormatInfo where
  duration : Option ℚ
  size : Option Int
  format_name : Option String
deriving DecidableEq

/-- The ffprobe document. -/
structure ProbeData where
  streams : List StreamInfo
  format : FormatInfo
deriving DecidableEq

/-- The stream-selection loop of lines 112-116: the first stream of the given
`codec_type` (later streams of the same type are ignored). -/
def firstOfType (t : String) : List StreamInfo → Option StreamInfo
  | [] => none
  | s :: ss => if s.codec_type = t then some s else firstOfType t ss

/-- An exception escaping the `try` body of `analyze_video_with_ffmpeg`.
With typed probe fields the only raise site left in the body is the
`HTTPException(400, "No video stream found")` of line 119. -/
inductive PyExc where
  | httpExc (status : Nat) (detail : String)
deriving DecidableEq

/-- Models starlette's `HTTPException.__str__`, `f"{status_code}: {detail}"`,
used when line 170 interpolates the caught exception. -/
def pyExcStr : PyExc → String
  | .httpExc status detail => toString status ++ ": " ++ detail

/-- The error value `HTTPException(status_code=..., detail=...)` as seen by
the caller. -/
structure HTTPErr where
  status : Nat
  detail : String
deriving DecidableEq

instance {ε α : Type} [DecidableEq ε] [DecidableEq α] : DecidableEq (Except ε α)
  | .ok a, .ok b =>
    if h : a = b then .isTrue (by rw [h]) else .isFalse (by simp [h])
  | .error e, .error f =>
    if h : e = f then .isTrue (by rw [h]) else .isFalse (by simp [h])
  | .ok _, .error _ => .isFalse (by simp)
  | .error _, .ok _ => .isFalse (by simp)

/-- The `try` body of `analyze_video_with_ffmpeg` (lines 105-166). -/
def analyzeBody (pd : ProbeData) (file_path : String) (freshId : String) (now : Nat) :
    Except PyExc VideoAnalysis :=
  match firstOfType "video" pd.streams with
  | none => .error (.httpExc 400 "No video stream found")
  | some vs =>
    let audio := firstOfType "audio" pd.streams
    let width := vs.width.getD 0
    let height := vs.height.getD 0
    let duration := pd.format.duration.getD 0
    let file_size := pd.format.size.getD 0
    let frame_rate := parseFrameRate vs.r_frame_rate
    let video_bitrate : Option Int :=
      match vs.bit_rate with
      | some b => some b
      | none =>
        if duration > 0 then
          -- total_bitrate = (file_size * 8) / duration; int(total_bitrate * 0.8)
          some (pyInt (((file_size * 8 : Int) : ℚ) / duration * 0.8))
        else none
    let audio_bitrate : Option Int :=
      match audio with
      | some as => as.bit_rate
      | none => none
    .ok { id := freshId,
          filename := pathName file_path,
          file_path := file_path,
          file_size := file_size,
          duration := duration,
          resolution := toString width ++ "x" ++ toString height,
          width := width,
          height := height,
          video_codec := vs.codec_name.getD "unknown",
          audio_codec := match audio with
            | some as => as.codec_name.getD "unknown"
            | none => "none",
          video_bitrate := video_bitrate,
          audio_bitrate := audio_bitrate,
          frame_rate := frame_rate,
          aspect_ratio := vs.display_aspect_ratio.getD "unknown",
          container_format := pd.format.format_name.getD "unknown",
          created_at := now,
          analysis_status := "completed" }

/-- `analyze_video_with_ffmpeg` (lines 102-170): the body wrapped in
`except Exception as e: raise HTTPException(500, f"Video analysis failed: {str(e)}")`.
Note that the catch-all also catches the `HTTPException` of line 119.
`freshId`/`now` feed the `VideoAnalysis(**analysis_data)` construction the
caller performs on the returned dict. -/
def analyze_video_with_ffmpeg (pd : ProbeData) (file_path : String)
    (freshId : String) (now : Nat) : Except HTTPErr VideoAnalysis :=
  match analyzeBody pd file_path freshId now with
  | .ok a => .ok a
  | .error e => .error ⟨500, "Video analysis failed: " ++ pyExcStr e⟩

/-! ## Document store primitives (`find_one` / `update_one` keyed by `id`) -/

/-- `db.handbrake_jobs.find_one({"id": i})`: first record with that id. -/
def findJob : List HandbrakeJob → String → Option HandbrakeJob
  | [], _ => none
  | j :: js, i => if j.id = i then some j else findJob js i

/-- `db.handbrake_jobs.update_one({"id": i}, {"$set": ...})`: apply the field
update to the first record with that id. -/
def updateJob : List HandbrakeJob → String → (HandbrakeJob → HandbrakeJob) → List HandbrakeJob
  | [], _, _ => []
  | j :: js, i, f => if j.id = i then f j :: js else j :: updateJob js i f

/-- `db.handbrake_settings.find_one({"id": i})`. -/
def findSettings : List HandbrakeSettings → String → Option HandbrakeSettings
  | [], _ => none
  | s :: ss, i => if s.id = i then some s else findSettings ss i

/-- `db.handbrake_settings.find_one({"video_analysis_id": i})`. -/
def findSettingsByAnalysis : List HandbrakeSettings → String → Option HandbrakeSettings
  | [], _ => none
  | s :: ss, i => if s.video_analysis_id = i then some s else findSettingsByAnalysis ss i

/-- `db.video_analyses.find_one({"id": i})`. -/
def findAnalysis : List VideoAnalysis → String → Option VideoAnalysis
  | [], _ => none
  | a :: rest, i => if a.id = i then some a else findAnalysis rest i

/-! ## The transcode worker (`run_handbrake_job`, lines 258-342) -/

/-- The file system: a partial map from file paths to file contents
(directories are not modelled; the worker's `mkdir` touches no file). -/
abbrev FileSys : Type := String → Option String

/-- What the spawned `HandBrakeCLI` child process does, an input of the
embedding: either `subprocess.Popen` itself raises (the process cannot be
spawned), or the process runs and exits with a code, a captured stderr text,
and the content it leaves at its `-o` output path (`none` = nothing
written). -/
inductive ProcBehavior where
  | spawnErr (msg : String)
  | exit (code : Int) (stderr : String) (output : Option String)
deriving DecidableEq

/-- The command reconstruction of lines 283-284:
`cmd = ["HandBrakeCLI"] + settings.full_command.split()[1:]`. -/
def reconstructCmd (full_command : String) : List String :=
  "HandBrakeCLI" :: (pySplit full_command).drop 1

/-- The output-path rewrite loop of lines 291-295: the element after the
first `-o` that has a successor is replaced by
`str(Path("/tmp/handbrake_output") / Path(elem).name)`. -/
def rewriteOutput : List String → List String
  | [] => []
  | [x] => [x]
  | x :: y :: rest =>
    if x = "-o" then x :: ("/tmp/handbrake_output/" ++ pathName y) :: rest
    else x :: rewriteOutput (y :: rest)

/-- The path the encoder writes: the element following the first `-o` flag of
the executed command. -/
def outputPathOf : List String → Option String
  | [] => none
  | [_] => none
  | x :: y :: rest => if x = "-o" then some y else outputPathOf (y :: rest)

/-- Effect of a completed encoder process on the file system: it may write
its `-o` output path and touches nothing else (the external-encoder contract:
the core depends only on exit code and stderr; the process is invoked with
`-i input -o output`). -/
def encoderEffect (cmd : List String) (out : Option String) (fs : FileSys) : FileSys :=
  match outputPathOf cmd, out with
  | some op, some content => fun p => if p = op then some content else fs p
  | _, _ => fs

/-- `run_handbrake_job` (lines 258-342).  The `try/except Exception` wrapper
is the outer `match` arms that end in a `"failed"` update: a missing settings
record raises `Exception("Handbrake settings not found")` and a spawn failure
raises from `subprocess.Popen`; both are caught at line 333 and recorded on
the job.  `tStart`/`tEnd` model the two `datetime.utcnow()` calls.  Returns
the updated job store and file system. -/
def run_handbrake_job (jobs : List HandbrakeJob) (settingsStore : List HandbrakeSettings)
    (fs : FileSys) (beh : ProcBehavior) (tStart tEnd : Nat) (jobId : String) :
    List HandbrakeJob × FileSys :=
  match findJob jobs jobId with
  | none => (jobs, fs)  -- line 264-265: log and return
  | some job =>
    let jobs1 := updateJob jobs jobId
      (fun j => { j with status := "running", started_at := some tStart })
    match findSettings settingsStore job.handbrake_settings_id with
    | none =>
      (updateJob jobs1 jobId (fun j =>
        { j with status := "failed",
                 error_message := some "Handbrake settings not found",
                 completed_at := some tEnd }), fs)
    | some settings =>
      let cmd := rewriteOutput (reconstructCmd settings.full_command)
      match beh with
      | .spawnErr msg =>
        (updateJob jobs1 jobId (fun j =>
          { j with status := "failed", error_message := some msg,
                   completed_at := some tEnd }), fs)
      | .exit code stderr out =>
        let fs' := encoderEffect cmd out fs
        if code = 0 then
          (updateJob jobs1 jobId (fun j =>
            { j with status := "completed", progress := 100,
                     completed_at := some tEnd }), fs')
        else
          (updateJob jobs1 jobId (fun j =>
            { j with status := "failed", error_message := some stderr,
                     completed_at := some tEnd }), fs')

/-! ## The enqueue endpoint (`queue_handbrake_job`, lines 405-443) -/

/-- The in-process server state the endpoint touches: the three record
collections and the list of background worker tasks handed to starlette's
`BackgroundTasks` (one entry per `add_task(run_handbrake_job, job.id)`,
line 435, identified by the job id). -/
structure ServerState where
  analyses : List VideoAnalysis
  settingsStore : List HandbrakeSettings
  jobs : List HandbrakeJob
  backgroundTasks : List String
deriving DecidableEq

/-- `queue_handbrake_job` (lines 405-443).  `freshJobId`/`now` model the
default factories of the `HandbrakeJob(...)` construction.  On success the
new job is appended to the store and one background execution of
`run_handbrake_job` is scheduled. -/
def queue_handbrake_job (st : ServerState) (analysisId : String)
    (freshJobId : String) (now : Nat) : Except HTTPErr (ServerState × String) :=
  match findAnalysis st.analyses analysisId with
  | none => .error ⟨404, "Analysis not found"⟩
  | some analysis =>
    match findSettingsByAnalysis st.settingsStore analysisId with
    | none => .error ⟨404, "Settings not found"⟩
    | some settings =>
      let job : HandbrakeJob :=
        { id := freshJobId,
          video_analysis_id := analysisId,
          input_file := analysis.file_path,
          output_file := pathStem analysis.file_path ++ "_optimized.mp4",
          handbrake_settings_id := settings.id,
          created_at := now }
      .ok ({ st with jobs := st.jobs ++ [job],
                     backgroundTasks := st.backgroundTasks ++ [job.id] }, job.id)

/-! ## Derived observables used in the claim statements -/

/-- The content fields of a settings record: everything except the freshly
generated record `id` and `created_at` timestamp. -/
def settingsContent (s : HandbrakeSettings) :
    String × String × String × String × String × String × ℚ × String × String :=
  (s.video_analysis_id, s.preset, s.video_encoder, s.quality, s.audio_encoder,
   s.container, s.estimated_compression, s.full_command, s.reasoning)

/-- The argument list the worker passes to `subprocess.Popen` (lines 283-295):
the whitespace-split reconstruction of `full_command` with the output path
rewritten into `/tmp/handbrake_output`. -/
def executedCmd (s : HandbrakeSettings) : List String :=
  rewriteOutput (reconstructCmd s.full_command)

/-- The only path the worker's execution of a job can write: the `-o` operand
of the executed command for the job's settings record (when job and settings
resolve). -/
def workerTouchedPath (jobs : List HandbrakeJob) (settingsStore : List HandbrakeSettings)
    (jobId : String) : Option String :=
  match findJob jobs jobId with
  | none => none
  | some job =>
    match findSettings settingsStore job.handbrake_settings_id with
    | none => none
    | some settings => outputPathOf (executedCmd settings)

/-- The error text `run_handbrake_job` records for a failing process
behaviour: the spawn-exception text, or the captured stderr. -/
def failText : ProcBehavior → String
  | .spawnErr msg => msg
  | .exit _ stderr _ => stderr

/-- A process behaviour the worker treats as a failure: a spawn exception or
a nonzero exit code. -/
def isFailureBeh : ProcBehavior → Prop
  | .spawnErr _ => True
  | .exit code _ _ => code ≠ 0

/-! ## Concrete sample data for witnesses and counterexamples -/

/-- A concrete SD analysis record (as the upload endpoint would persist for a
small h264/aac file at `/videos/a.mp4`). -/
def sampleSD : VideoAnalysis :=
  { id := "A"
    filename := "a.mp4"
    file_path := "/videos/a.mp4"
    file_size := 1000
    duration := 5
    resolution := "640x480"
    width := 640
    height := 480
    video_codec := "h264"
    audio_codec := "aac"
    video_bitrate := some 5000
    audio_bitrate := none
    frame_rate := some 30
    aspect_ratio := "4:3"
    container_format := "mp4"
    created_at := 0
    analysis_status := "completed" }

/-- The settings record derived from `sampleSD`. -/
def sampleSettings : HandbrakeSettings := generate_handbrake_settings sampleSD "S1" 0

/-- A queued job for `sampleSD` referencing `sampleSettings`. -/
def sampleJob : HandbrakeJob :=
  { id := "J1"
    video_analysis_id := "A"
    input_file := "/videos/a.mp4"
    output_file := "a_optimized.mp4"
    handbrake_settings_id := "S1"
    created_at := 0 }

/-- A file system holding only the job's original content at the input
path. -/
def sampleFs : FileSys :=
  fun p => if p = "/videos/a.mp4" then some "ORIGINAL" else none

/-- Server state with one analysis and its settings, nothing queued. -/
def sampleState : ServerState :=
  { analyses := [sampleSD]
    settingsStore := [sampleSettings]
    jobs := []
    backgroundTasks := [] }

/-- The number of background worker-task starts after a burst of two
enqueues for the same analysis with no idle gap (no task runs in between). -/
def burstTaskCount : Nat :=
  match queue_handbrake_job sampleState "A" "j1" 0 with
  | .ok (st1, _) =>
    match queue_handbrake_job st1 "A" "j2" 1 with
    | .ok (st2, _) => st2.backgroundTasks.length
    | .error _ => 0
  | .error _ => 0

/-- An analysis record that differs from `sampleSD` only in `height`, for the
tier-boundary witnesses. -/
def tierProfile (h : Int) : VideoAnalysis := { sampleSD with height := h }

/-- A dense 1080p profile: 5 Mbit/s over 1920×1080 pixels, bits-per-pixel
about 2.4 > 0.15. -/
def sample1080Dense : VideoAnalysis :=
  { sampleSD with width := 1920, height := 1080, video_bitrate := some 5000000 }

/-- A degenerate zero-area 1080-tier profile (width 0). -/
def sample1080Zero : VideoAnalysis :=
  { sampleSD with width := 0, height := 1080, video_bitrate := some 5000000 }

/-- A probe video stream that reports its bit rate. -/
def sampleVideoStream : StreamInfo :=
  { codec_type := "video"
    codec_name := some "h264"
    width := some 1920
    height := some 1080
    bit_rate := some 5000
    r_frame_rate := none
    display_aspect_ratio := some "16:9" }

/-- A probe audio stream. -/
def sampleAudioStream : StreamInfo :=
  { codec_type := "audio"
    codec_name := some "aac"
    width := none
    height := none
    bit_rate := some 128000
    r_frame_rate := none
    display_aspect_ratio := none }

/-- A probe document with one video and one audio stream. -/
def sampleProbe : ProbeData :=
  { streams := [sampleVideoStream, sampleAudioStream]
    format := { duration := some 5, size := some 1000, format_name := some "mp4" } }

/-- A probe document containing no video stream. -/
def sampleProbeNoVideo : ProbeData :=
  { streams := [sampleAudioStream]
    format := { duration := some 5, size := some 1000, format_name := some "mp4" } }

/-- The analysis record `analyze_video_with_ffmpeg` produces for
`sampleProbe` at path `/v/f.mp4` with fresh id `I` at time 7. -/
def sampleProbeRecord : VideoAnalysis :=
  { id := "I"
    filename := "f.mp4"
    file_path := "/v/f.mp4"
    file_size := 1000
    duration := 5
    resolution := "1920x1080"
    width := 1920
    height := 1080
    video_codec := "h264"
    audio_codec := "aac"
    video_bitrate := some 5000
    audio_bitrate := some 128000
    frame_rate := none
    aspect_ratio := "16:9"
    container_format := "mp4"
    created_at := 7
    analysis_status := "completed" }

/-! ## Helper lemmas -/

theorem findJob_updateJob (l : List HandbrakeJob) (i : String)
    (f : HandbrakeJob → HandbrakeJob) (hf : ∀ j, (f j).id = j.id) :
    findJob (updateJob l i f) i = (findJob l i).map f := by
  induction l with
  | nil => rfl
  | cons j js ih =>
    by_cases h : j.id = i
    · simp [updateJob, findJob, h, hf j]
    · simp [updateJob, findJob, h, ih]

theorem firstOfType_eq_none (t : String) (l : List StreamInfo)
    (h : ∀ s ∈ l, s.codec_type ≠ t) : firstOfType t l = none := by
  induction l with
  | nil => rfl
  | cons s ss ih =>
    simp only [firstOfType]
    rw [if_neg (h s (by simp))]
    exact ih fun x hx => h x (by simp [hx])

/-! ## C3: resolution tiering -/

/-- C3: for every MediaProfile, `generate_handbrake_settings` selects the
preset tier by vertical resolution, thresholds evaluated high to low, first
match wins: height ≥ 2160 gives the slowest preset ("Very Slow") with the
high-efficiency encoder (x265) and compression estimate 0.4; 2160 > height ≥
1080 gives "Slow"/x264/0.5; 1080 > height ≥ 720 gives "Medium"/x264/0.6;
height < 720 gives "Fast"/x264/0.7.  Consequently heights 2160/2159 (and
1080/1079, 720/719) land in adjacent tiers. -/
theorem resolution_tiering (a : VideoAnalysis) (freshId : String) (now : Nat) :
    (2160 ≤ a.height →
      (generate_handbrake_settings a freshId now).preset = "Very Slow" ∧
      (generate_handbrake_settings a freshId now).video_encoder = "x265" ∧
      (generate_handbrake_settings a freshId now).estimated_compression = 0.4) ∧
    (1080 ≤ a.height → a.height < 2160 →
      (generate_handbrake_settings a freshId now).preset = "Slow" ∧
      (generate_handbrake_settings a freshId now).video_encoder = "x264" ∧
      (generate_handbrake_settings a freshId now).estimated_compression = 0.5) ∧
    (720 ≤ a.height → a.height < 1080 →
      (generate_handbrake_settings a freshId now).preset = "Medium" ∧
      (generate_handbrake_settings a freshId now).video_encoder = "x264" ∧
      (generate_handbrake_settings a freshId now).estimated_compression = 0.6) ∧
    (a.height < 720 →
      (generate_handbrake_settings a freshId now).preset = "Fast" ∧
      (generate_handbrake_settings a freshId now).video_encoder = "x264" ∧
      (generate_handbrake_settings a freshId now).estimated_compression = 0.7) := by
  refine ⟨fun h1 => ?_, fun h1 h2 => ?_, fun h1 h2 => ?_, fun h1 => ?_⟩ <;>
    simp only [generate_handbrake_settings, tierOf] <;>
    split_ifs <;> first | exact ⟨rfl, rfl, rfl⟩ | omega

/-- Witness for C3 at the boundary heights 2160/2159, 1080/1079, 720/719. -/
theorem resolution_tiering_witness :
    (generate_handbrake_settings (tierProfile 2160) "i" 0).preset = "Very Slow" ∧
    (generate_handbrake_settings (tierProfile 2159) "i" 0).preset = "Slow" ∧
    (generate_handbrake_settings (tierProfile 1080) "i" 0).preset = "Slow" ∧
    (generate_handbrake_settings (tierProfile 1079) "i" 0).preset = "Medium" ∧
    (generate_handbrake_settings (tierProfile 720) "i" 0).preset = "Medium" ∧
    (generate_handbrake_settings (tierProfile 719) "i" 0).preset = "Fast" :=
  ⟨((resolution_tiering (tierProfile 2160) "i" 0).1 (by decide)).1,
   ((resolution_tiering (tierProfile 2159) "i" 0).2.1 (by decide) (by decide)).1,
   ((resolution_tiering (tierProfile 1080) "i" 0).2.1 (by decide) (by decide)).1,
   ((resolution_tiering (tierProfile 1079) "i" 0).2.2.1 (by decide) (by decide)).1,
   ((resolution_tiering (tierProfile 720) "i" 0).2.2.1 (by decide) (by decide)).1,
   ((resolution_tiering (tierProfile 719) "i" 0).2.2.2 (by decide)).1⟩

/-! ## C4: the 1080p bits-per-pixel quality branch -/

/-- C4: for every MediaProfile routed to the 1080 tier, bits-per-pixel above
0.15 selects the stricter quality value "22" (higher CRF, stronger
compression) and bits-per-pixel ≤ 0.15 — including the degenerate
`width * height = 0` case, where `bitratePerPixel` is 0 by definition
instead of dividing — selects the looser value "20". -/
theorem quality_branch_1080 (a : VideoAnalysis) (freshId : String) (now : Nat)
    (h1 : 1080 ≤ a.height) (h2 : a.height < 2160) :
    (bitratePerPixel a > 0.15 →
      (generate_handbrake_settings a freshId now).quality = "22") ∧
    (bitratePerPixel a ≤ 0.15 →
      (generate_handbrake_settings a freshId now).quality = "20") := by
  have hlt : ¬(a.height ≥ 2160) := by omega
  constructor <;> intro hb <;>
    simp only [generate_handbrake_settings, tierOf, if_neg hlt, if_pos h1]
  · rw [if_pos hb]
  · rw [if_neg (not_lt.mpr hb)]

/-- Witness for C4: a dense 1080p profile gets quality "22"; a zero-area
1080-tier profile gets the looser "20". -/
theorem quality_branch_1080_witness :
    (generate_handbrake_settings sample1080Dense "i" 0).quality = "22" ∧
    (generate_handbrake_settings sample1080Zero "i" 0).quality = "20" :=
  ⟨(quality_branch_1080 sample1080Dense "i" 0 (by decide) (by decide)).1
    (by norm_num [bitratePerPixel, sample1080Dense, sampleSD]),
   (quality_branch_1080 sample1080Zero "i" 0 (by decide) (by decide)).2
    (by norm_num [bitratePerPixel, sample1080Zero, sampleSD])⟩

/-! ## C5: determinism of the settings derivation -/

/-- C5 (counterexample to the claim as stated): two calls of
`generate_handbrake_settings` on the same analysis are not byte-identical:
the record carries a freshly generated `id` (and `created_at`), so two calls
with different ambient uuid draws differ. -/
theorem derive_not_byte_identical :
    generate_handbrake_settings sampleSD "11111111-1111-1111-1111-111111111111" 0 ≠
    generate_handbrake_settings sampleSD "22222222-2222-2222-2222-222222222222" 0 := by
  decide

/-- C5 (amended): the derivation is deterministic in all content fields —
for the same analysis, any two calls agree on `video_analysis_id`, `preset`,
`video_encoder`, `quality`, `audio_encoder`, `container`,
`estimated_compression`, the materialized `full_command` (argument order
included), and `reasoning`; only the fresh record `id` and `created_at` can
differ. -/
theorem derive_content_deterministic (a : VideoAnalysis)
    (freshId₁ freshId₂ : String) (now₁ now₂ : Nat) :
    settingsContent (generate_handbrake_settings a freshId₁ now₁) =
    settingsContent (generate_handbrake_settings a freshId₂ now₂) := rfl

/-! ## C7: the no-video-stream probe error -/

/-- C7 (the code, at the failing input class): for every probed file whose
metadata contains no video stream, `analyze_video_with_ffmpeg` raises the
distinguishable `HTTPException(400, "No video stream found")` — but its own
catch-all `except Exception` absorbs it and re-raises the generic
`HTTPException(500, "Video analysis failed: ...")`, so the caller sees the
generic analysis-failure error, not a distinguishable no-video-stream
error. -/
theorem no_video_stream_absorbed (pd : ProbeData) (file_path freshId : String) (now : Nat)
    (h : ∀ s ∈ pd.streams, s.codec_type ≠ "video") :
    analyze_video_with_ffmpeg pd file_path freshId now =
      .error ⟨500, "Video analysis failed: 400: No video stream found"⟩ := by
  have hv : firstOfType "video" pd.streams = none := firstOfType_eq_none _ _ h
  simp only [analyze_video_with_ffmpeg, analyzeBody, hv, pyExcStr]
  decide

/-- Witness for C7: a probe with a single audio stream. -/
theorem no_video_stream_absorbed_witness :
    analyze_video_with_ffmpeg sampleProbeNoVideo "/v/f.mp4" "I" 7 =
      .error ⟨500, "Video analysis failed: 400: No video stream found"⟩ :=
  no_video_stream_absorbed sampleProbeNoVideo "/v/f.mp4" "I" 7 (by decide)

/-! ## C8: totality of the frame-rate parse -/

/-- Normal form of the frame-rate parse: it is the `ratParts` view followed
by the zero-denominator test. -/
theorem parseFrameRate_eq (s : String) :
    parseFrameRate (some s) =
      match ratParts s with
      | some (nv, dv) => if dv = 0 then none else some (nv / dv)
      | none => none := by
  rcases hsp : splitSlash s with _ | ⟨a, _ | ⟨b, _ | ⟨c, t3⟩⟩⟩ <;>
    simp only [parseFrameRate, ratParts, hsp]
  cases hd : pyFloat b <;> cases hn : pyFloat a <;>
    simp [hd, hn, ite_not]

/-- C8: the frame-rate parse is total and never escapes as an exception: it
yields `None` when the `r_frame_rate` field is absent, when the rational
string is malformed (does not split into exactly two float-parsable parts),
and when the parsed denominator is zero; on a well-formed rational with
nonzero denominator it yields the quotient.  (`parseFrameRate` is a total
function into `Option ℚ`; every exception of the Python `try` body is mapped
to `None` by the bare `except`.) -/
theorem frame_rate_parse_total :
    parseFrameRate none = none ∧
    (∀ s, ratParts s = none → parseFrameRate (some s) = none) ∧
    (∀ s nv dv, ratParts s = some (nv, dv) → dv = 0 →
      parseFrameRate (some s) = none) ∧
    (∀ s nv dv, ratParts s = some (nv, dv) → dv ≠ 0 →
      parseFrameRate (some s) = some (nv / dv)) := by
  refine ⟨rfl, ?_, ?_, ?_⟩ <;> intro s <;> rw [parseFrameRate_eq]
  · intro h; simp [h]
  · intro nv dv h h0; simp [h, h0]
  · intro nv dv h h0; simp [h, h0]

/-- Witness for C8: a zero-denominator rational and a malformed rational
both parse to `None`; `29.97` frame rate `30000/1001` parses to the
quotient. -/
theorem frame_rate_parse_total_witness :
    parseFrameRate (some "30/0") = none ∧
    parseFrameRate (some "abc") = none ∧
    parseFrameRate (some "30000/1001") = some ((30000 : ℚ) / 1001) :=
  ⟨frame_rate_parse_total.2.2.1 "30/0" 30 0
      (by simp [ratParts, splitSlash, splitOnChar, pyFloat, digitsVal, isPySpace, pyWsChars]) rfl,
   frame_rate_parse_total.2.1 "abc" (by decide),
   frame_rate_parse_total.2.2.2 "30000/1001" 30000 1001
      (by simp [ratParts, splitSlash, splitOnChar, pyFloat, digitsVal, isPySpace, pyWsChars])
      (by norm_num)⟩

/-! ## C9: the video-bitrate fallback order -/

/-- C9: for every probed file that analyzes successfully, the recorded video
bitrate is (a) the reported stream bit rate when the first video stream has
one; otherwise (b) the 80% estimate `int((file_size * 8 / duration) * 0.8)`
when duration > 0; otherwise (c) `None` — in exactly this order, so the
estimate is never used when a reported stream bitrate exists. -/
theorem video_bitrate_fallback (pd : ProbeData) (file_path freshId : String) (now : Nat)
    (a : VideoAnalysis) (vs : StreamInfo)
    (hok : analyze_video_with_ffmpeg pd file_path freshId now = .ok a)
    (hvs : firstOfType "video" pd.streams = some vs) :
    (∀ b, vs.bit_rate = some b → a.video_bitrate = some b) ∧
    (vs.bit_rate = none → 0 < pd.format.duration.getD 0 →
      a.video_bitrate =
        some (pyInt ((((pd.format.size.getD 0) * 8 : Int) : ℚ) /
          pd.format.duration.getD 0 * 0.8))) ∧
    (vs.bit_rate = none → pd.format.duration.getD 0 ≤ 0 →
      a.video_bitrate = none) := by
  simp only [analyze_video_with_ffmpeg, analyzeBody, hvs] at hok
  have ha := (Except.ok.injEq _ _).mp hok
  subst ha
  refine ⟨fun b hb => ?_, fun hb hd => ?_, fun hb hd => ?_⟩
  · simp [hb]
  · simp [hb, if_pos hd]
  · simp [hb, if_neg (not_lt.mpr hd)]

/-- Witness for C9: a probe whose video stream reports `bit_rate = 5000`
analyzes to a record with video bitrate 5000 (the estimate is not used). -/
theorem video_bitrate_fallback_witness :
    sampleProbeRecord.video_bitrate = some 5000 :=
  (video_bitrate_fallback sampleProbe "/v/f.mp4" "I" 7 sampleProbeRecord
      sampleVideoStream (by decide) (by decide)).1 5000 (by decide)

/-! ## C6: encode-failure capture -/

/-- C6: whenever the encoder process exits nonzero or the spawn raises, the
worker records `failed` with the captured stderr (resp. exception text) and a
completion timestamp on the job, and the failure never escapes the worker:
`run_handbrake_job` is a total function into an updated store (every
exception of its `try` body is caught at line 333 and converted into the same
`failed` update). -/
theorem encode_failure_capture (jobs : List HandbrakeJob)
    (settingsStore : List HandbrakeSettings) (fs : FileSys) (beh : ProcBehavior)
    (tStart tEnd : Nat) (jobId : String) (job : HandbrakeJob)
    (settings : HandbrakeSettings)
    (hj : findJob jobs jobId = some job)
    (hs : findSettings settingsStore job.handbrake_settings_id = some settings)
    (hfail : isFailureBeh beh) :
    findJob (run_handbrake_job jobs settingsStore fs beh tStart tEnd jobId).1 jobId =
      some { job with status := "failed", started_at := some tStart,
                      completed_at := some tEnd,
                      error_message := some (failText beh) } := by
  cases beh with
  | spawnErr msg =>
    simp only [run_handbrake_job, hj, hs, failText]
    rw [findJob_updateJob
          (updateJob jobs jobId
            (fun j => { j with status := "running", started_at := some tStart }))
          jobId
          (fun j => { j with status := "failed", error_message := some msg,
                             completed_at := some tEnd })
          (fun _ => rfl),
        findJob_updateJob jobs jobId
          (fun j => { j with status := "running", started_at := some tStart })
          (fun _ => rfl),
        hj]
    rfl
  | exit code stderr out =>
    have hc : ¬(code = 0) := hfail
    simp only [run_handbrake_job, hj, hs, failText, if_neg hc]
    rw [findJob_updateJob
          (updateJob jobs jobId
            (fun j => { j with status := "running", started_at := some tStart }))
          jobId
          (fun j => { j with status := "failed", error_message := some stderr,
                             completed_at := some tEnd })
          (fun _ => rfl),
        findJob_updateJob jobs jobId
          (fun j => { j with status := "running", started_at := some tStart })
          (fun _ => rfl),
        hj]
    rfl

/-- Witness for C6: a nonzero encoder exit with stderr `"boom"` marks the
sample job failed with that error text and both timestamps. -/
theorem encode_failure_capture_witness :
    findJob (run_handbrake_job [sampleJob] [sampleSettings] sampleFs
        (.exit 1 "boom" none) 1 2 "J1").1 "J1" =
      some { sampleJob with status := "failed", started_at := some 1,
                            completed_at := some 2,
                            error_message := some "boom" } :=
  encode_failure_capture [sampleJob] [sampleSettings] sampleFs (.exit 1 "boom" none)
    1 2 "J1" sampleJob sampleSettings (by rfl) (by rfl)
    (by show (1 : Int) ≠ 0; decide)

/-! ## C2: single-flight queue -/

/-- C2 (counterexample to the claim as stated): a burst of two enqueues with
no idle gap starts two background worker-task executions, not one — each call
to `queue_handbrake_job` hands its own `run_handbrake_job` task to
`BackgroundTasks.add_task`; there is no backlog and no single worker loop. -/
theorem single_flight_refuted : burstTaskCount = 2 ∧ burstTaskCount ≠ 1 := by
  decide

/-- C2 (amended): each successful enqueue schedules its own background
execution of `run_handbrake_job`: the scheduled-task list grows by exactly
the new job, regardless of how many tasks are already pending, and the job
store grows by one. -/
theorem enqueue_schedules_new_task (st : ServerState)
    (analysisId freshJobId : String) (now : Nat)
    (analysis : VideoAnalysis) (settings : HandbrakeSettings)
    (ha : findAnalysis st.analyses analysisId = some analysis)
    (hs : findSettingsByAnalysis st.settingsStore analysisId = some settings) :
    ∃ st', queue_handbrake_job st analysisId freshJobId now = .ok (st', freshJobId) ∧
      st'.backgroundTasks = st.backgroundTasks ++ [freshJobId] ∧
      st'.jobs.length = st.jobs.length + 1 := by
  simp only [queue_handbrake_job, ha, hs]
  exact ⟨_, rfl, rfl, by simp⟩

/-- Witness for C2's amended claim at the sample state. -/
theorem enqueue_schedules_new_task_witness :
    ∃ st', queue_handbrake_job sampleState "A" "j1" 0 = .ok (st', "j1") ∧
      st'.backgroundTasks = sampleState.backgroundTasks ++ ["j1"] ∧
      st'.jobs.length = sampleState.jobs.length + 1 :=
  enqueue_schedules_new_task sampleState "A" "j1" 0 sampleSD sampleSettings
    (by rfl) (by rfl)

/-! ## C1: the file-safety staging invariant -/

/-- C1 (counterexample to the claim as stated): the worker performs no
relocation.  Running the sample job to successful completion leaves the
original content still at the input path — under the claimed invariant a
completed job's staged copy has been discarded and the original is no longer
at the input path, and the source file would have been moved to a staging
path before the encoder ran; neither happens. -/
theorem staging_relocation_refuted :
    findJob (run_handbrake_job [sampleJob] [sampleSettings] sampleFs
        (.exit 0 "" (some "ENCODED")) 1 2 "J1").1 "J1" =
      some { sampleJob with status := "completed", progress := 100,
                            started_at := some 1, completed_at := some 2 } ∧
    (run_handbrake_job [sampleJob] [sampleSettings] sampleFs
        (.exit 0 "" (some "ENCODED")) 1 2 "J1").2 "/videos/a.mp4" =
      some "ORIGINAL" := by
  constructor
  · decide
  · decide

/-- C1 (amended): the worker never relocates the source file.  For every job,
store, file system and process behaviour, every path other than the resolved
output path of the executed command — in particular the input path whenever
it differs from that output path — holds exactly the same content after
`run_handbrake_job` as before, for every outcome; no staging path is ever
created, read, or deleted. -/
theorem worker_never_relocates (jobs : List HandbrakeJob)
    (settingsStore : List HandbrakeSettings) (fs : FileSys) (beh : ProcBehavior)
    (tStart tEnd : Nat) (jobId p : String)
    (hp : some p ≠ workerTouchedPath jobs settingsStore jobId) :
    (run_handbrake_job jobs settingsStore fs beh tStart tEnd jobId).2 p = fs p := by
  cases hj : findJob jobs jobId with
  | none => simp only [run_handbrake_job, hj]
  | some job =>
    cases hs : findSettings settingsStore job.handbrake_settings_id with
    | none => simp only [run_handbrake_job, hj, hs]
    | some settings =>
      simp only [workerTouchedPath, executedCmd, hj, hs] at hp
      have heff : encoderEffect (rewriteOutput (reconstructCmd settings.full_command))
          (match beh with | .spawnErr _ => none | .exit _ _ out => out) fs p = fs p := by
        unfold encoderEffect
        cases ho : outputPathOf (rewriteOutput (reconstructCmd settings.full_command)) with
        | none => rfl
        | some op =>
          rw [ho] at hp
          cases beh with
          | spawnErr msg => rfl
          | exit code stderr out =>
            cases out with
            | none => rfl
            | some content =>
              have hpo : p ≠ op := fun hcontra => hp (by rw [hcontra])
              simp only [if_neg hpo]
      cases beh with
      | spawnErr msg => simp only [run_handbrake_job, hj, hs]
      | exit code stderr out =>
        simp only [run_handbrake_job, hj, hs]
        split
        · exact heff
        · exact heff

/-- Witness for C1's amended claim: after a successful run of the sample job,
the input path still holds the original content. -/
theorem worker_never_relocates_witness :
    (run_handbrake_job [sampleJob] [sampleSettings] sampleFs
        (.exit 0 "" (some "ENCODED")) 1 2 "J1").2 "/videos/a.mp4" =
      sampleFs "/videos/a.mp4" :=
  worker_never_relocates [sampleJob] [sampleSettings] sampleFs
    (.exit 0 "" (some "ENCODED")) 1 2 "J1" "/videos/a.mp4" (by decide)

/-! ## C10: the join/split command round trip -/

theorem words_cons_space {c : Char} (h : isPySpace c = true) (cs : List Char) :
    words (c :: cs) = words cs := by
  simp [words, h]

theorem words_single_nonspace {c : Char} (h : isPySpace c = false) :
    words [c] = [[c]] := by
  simp [words, h]

theorem words_cons_nonspace_space {c d : Char} (hc : isPySpace c = false)
    (hd : isPySpace d = true) (cs : List Char) :
    words (c :: d :: cs) = [c] :: words (d :: cs) := by
  simp [words, hc, hd]

theorem words_cons_two_nonspace {c d : Char} (hc : isPySpace c = false)
    (hd : isPySpace d = false) (cs : List Char) :
    words (c :: d :: cs) =
      match words (d :: cs) with
      | [] => [[c]]
      | w :: ws => (c :: w) :: ws := by
  simp [words, hc, hd]

/-- Every word produced by `words` is nonempty and whitespace-free. -/
theorem words_props (l : List Char) :
    ∀ w ∈ words l, w ≠ [] ∧ ∀ c ∈ w, isPySpace c = false := by
  induction l with
  | nil => intro w hw; simp [words] at hw
  | cons c cs ih =>
    intro w hw
    cases hc : isPySpace c with
    | true =>
      rw [words_cons_space hc] at hw
      exact ih w hw
    | false =>
      cases cs with
      | nil =>
        rw [words_single_nonspace hc] at hw
        simp only [List.mem_singleton] at hw
        subst hw
        exact ⟨by simp, by simp [hc]⟩
      | cons d cs2 =>
        cases hd : isPySpace d with
        | true =>
          rw [words_cons_nonspace_space hc hd] at hw
          rcases List.mem_cons.mp hw with rfl | hw2
          · exact ⟨by simp, by simp [hc]⟩
          · exact ih w hw2
        | false =>
          rw [words_cons_two_nonspace hc hd] at hw
          cases hws : words (d :: cs2) with
          | nil => rw [hws] at hw; simp only [List.mem_singleton] at hw; subst hw
                   exact ⟨by simp, by simp [hc]⟩
          | cons w0 ws =>
            rw [hws] at hw
            rcases List.mem_cons.mp hw with rfl | hw2
            · have h0 := ih w0 (by rw [hws]; exact List.mem_cons_self _ _)
              refine ⟨by simp, ?_⟩
              intro x hx
              rcases List.mem_cons.mp hx with rfl | hx2
              · exact hc
              · exact h0.2 x hx2
            · exact ih w (by rw [hws]; exact List.mem_cons_of_mem _ hw2)

/-- Appending a nonempty whitespace-free word and a rest that is empty or
starts with whitespace prepends the word to the rest's decomposition. -/
theorem words_append (w r : List Char) (hw : w ≠ [])
    (hall : ∀ c ∈ w, isPySpace c = false)
    (hr : r = [] ∨ ∃ c t, r = c :: t ∧ isPySpace c = true) :
    words (w ++ r) = w :: words r := by
  induction w with
  | nil => exact absurd rfl hw
  | cons c w' ih =>
    have hc : isPySpace c = false := hall c (by simp)
    cases w' with
    | nil =>
      simp only [List.cons_append, List.nil_append]
      rcases hr with rfl | ⟨d, t, rfl, hd⟩
      · rw [words_single_nonspace hc]; rfl
      · rw [words_cons_nonspace_space hc hd]
    | cons e w'' =>
      have he : isPySpace e = false := hall e (by simp)
      have ihw : words ((e :: w'') ++ r) = (e :: w'') :: words r :=
        ih (by simp) (fun x hx => hall x (List.mem_cons_of_mem _ hx))
      have hgoal : words (c :: ((e :: w'') ++ r)) = (c :: e :: w'') :: words r := by
        simp only [List.cons_append]
        rw [words_cons_two_nonspace hc he]
        simp only [List.cons_append] at ihw
        rw [ihw]
      simpa using hgoal

/-- Round trip: joining nonempty whitespace-free words with single spaces and
re-splitting on whitespace recovers the words. -/
theorem words_joinSp (ts : List (List Char))
    (h : ∀ w ∈ ts, w ≠ [] ∧ ∀ c ∈ w, isPySpace c = false) :
    words (joinSpChars ts) = ts := by
  induction ts with
  | nil => rfl
  | cons w ws ih =>
    cases ws with
    | nil =>
      have hw := h w (by simp)
      have := words_append w [] hw.1 hw.2 (Or.inl rfl)
      simpa [joinSpChars] using this
    | cons x ws2 =>
      have hw := h w (by simp)
      have hx : joinSpChars (w :: x :: ws2) = w ++ ' ' :: joinSpChars (x :: ws2) := rfl
      rw [hx, words_append w (' ' :: joinSpChars (x :: ws2)) hw.1 hw.2
          (Or.inr ⟨' ', _, rfl, by decide⟩),
        words_cons_space (by decide),
        ih (fun v hv => h v (List.mem_cons_of_mem _ hv))]

/-- The worker's command reconstruction undoes the generator's single-space
join exactly when every argument is nonempty and whitespace-free. -/
theorem reconstruct_pyJoin (args : List String)
    (h0 : args.head? = some "HandBrakeCLI") :
    reconstructCmd (pyJoin args) = args ↔
      ∀ arg ∈ args, arg ≠ "" ∧ ∀ c ∈ arg.data, isPySpace c = false := by
  have hmkdata : ∀ s : String, String.mk s.data = s := fun s => by cases s; rfl
  have hms : ∀ l : List String, List.map String.mk (List.map String.data l) = l := by
    intro l
    induction l with
    | nil => rfl
    | cons s ss ih => simp only [List.map_cons, hmkdata s, ih]
  cases args with
  | nil => simp at h0
  | cons a0 t =>
  have ha0 : a0 = "HandBrakeCLI" := by simpa using h0
  subst ha0
  constructor
  · intro hrec arg harg
    rcases List.mem_cons.mp harg with rfl | hargt
    · exact ⟨by decide, by decide⟩
    · have ht : (pySplit (pyJoin ("HandBrakeCLI" :: t))).drop 1 = t :=
        ((List.cons.injEq _ _ _ _).mp hrec).2
      have hargd : arg ∈ (pySplit (pyJoin ("HandBrakeCLI" :: t))).drop 1 := by
        rw [ht]; exact hargt
      have harg2 : arg ∈ pySplit (pyJoin ("HandBrakeCLI" :: t)) :=
        List.drop_subset 1 _ hargd
      obtain ⟨w, hw, rfl⟩ := List.mem_map.mp harg2
      have hprops := words_props _ w hw
      constructor
      · intro hcon
        exact hprops.1 (congrArg String.data hcon)
      · exact fun c hc => hprops.2 c hc
  · intro hall
    have hmap : words (joinSpChars (("HandBrakeCLI" :: t).map String.data)) =
        ("HandBrakeCLI" :: t).map String.data := by
      refine words_joinSp _ ?_
      intro w hw
      obtain ⟨s, hs, rfl⟩ := List.mem_map.mp hw
      have hprop := hall s hs
      refine ⟨fun hnil => hprop.1 ?_, hprop.2⟩
      rw [← hmkdata s, hnil]
    have hsplit : pySplit (pyJoin ("HandBrakeCLI" :: t)) = "HandBrakeCLI" :: t := by
      unfold pySplit pyJoin
      rw [show (String.mk (joinSpChars (("HandBrakeCLI" :: t).map String.data))).data =
            joinSpChars (("HandBrakeCLI" :: t).map String.data) from rfl,
        hmap]
      exact hms _
    unfold reconstructCmd
    rw [hsplit]
    rfl

/-- C10 (amended): the list the worker reconstructs from the stored
`full_command` (splitting on whitespace, dropping the first token and
re-prepending `HandBrakeCLI`) — i.e. the executed argument list before the
worker's output-path rewrite — equals the plan's original argument list if
and only if every element (in particular the input and output paths) is
non-empty and contains no whitespace. -/
theorem cmd_reconstruction (a : VideoAnalysis) (freshId : String) (now : Nat) :
    reconstructCmd (generate_handbrake_settings a freshId now).full_command =
        handbrakeCmd a ↔
      ∀ arg ∈ handbrakeCmd a, arg ≠ "" ∧ ∀ c ∈ arg.data, isPySpace c = false := by
  have hfc : (generate_handbrake_settings a freshId now).full_command =
      pyJoin (handbrakeCmd a) := rfl
  rw [hfc]
  apply reconstruct_pyJoin
  simp only [handbrakeCmd]
  split <;> rfl

/-- C10 (counterexample to the claim as stated): for the sample SD profile
every element of the plan's argument list is nonempty and whitespace-free,
yet the argument list the worker actually executes still differs from the
plan — the worker unconditionally rewrites the `-o` operand into
`/tmp/handbrake_output` — so "executed = plan ↔ elements clean" is false as
a biconditional about the executed command. -/
theorem executed_differs_from_plan :
    (∀ arg ∈ handbrakeCmd sampleSD, arg ≠ "" ∧ ∀ c ∈ arg.data, isPySpace c = false) ∧
    executedCmd (generate_handbrake_settings sampleSD "S1" 0) ≠ handbrakeCmd sampleSD := by
  constructor
  · decide
  · decide

end Videoarr
